import Mathlib

/-!
# Shallow embedding of `token_runtime_id/runtime_id.py`

The module manages a context-scoped "runtime id": a decorator `runtime_id`
wraps a unit of work so that each invocation installs a freshly derived
identifier (root or child) into two context-local slots
(`_RUNTIME_ID_CTX : str | None`, `_RUNTIME_DEPTH_CTX : int`), runs the work,
and restores both slots in a `finally` block.

Identifiers are modelled as `List Char` (Python strings).  The two context
slots form `Ctx`; the ambient world `World` additionally carries the position
into a global random stream (`random.choices` consumes randomness globally,
not per context) and an observation log used to record side effects of
wrapped work.  A unit of work is `Work α : World → Except PyErr α × World`:
it may read/write the ambient state and either return a value or raise.
-/

/-- The decimal rendering of a natural number, as Python's `str(n)` / f-string
interpolation produces for the non-negative integers used here. -/
def natRepr (n : Nat) : List Char :=
  (Nat.repr n).data

/-- The two context-local slots of `runtime_id.py`:
`_RUNTIME_ID_CTX` (default `None`) and `_RUNTIME_DEPTH_CTX` (default `0`). -/
structure Ctx where
  runtimeId : Option (List Char)
  depth : Nat
  deriving DecidableEq, Repr

/-- The ambient world: the context slots, the position consumed so far in the
global random stream, and a log in which wrapped work records side effects. -/
structure World where
  ctx : Ctx
  pos : Nat
  log : List Nat
  deriving DecidableEq, Repr

/-- The world outside any scope: both context slots at their defaults. -/
def World.initial : World :=
  { ctx := { runtimeId := Option.none, depth := 0 }, pos := 0, log := [] }

/-- Python exceptions relevant to the module: `RuntimeIdException`,
`ValueError` (each with its message), and any other error raised by wrapped
work, identified by a tag. -/
inductive PyErr where
  | runtimeIdExc (msg : List Char)
  | valueError (msg : List Char)
  | other (tag : Nat)
  deriving DecidableEq, Repr

deriving instance DecidableEq for Except

/-- A unit of work: reads/writes the ambient world and returns a value or
raises an error. -/
def Work (α : Type) : Type :=
  World → Except PyErr α × World

/-- `get_runtime_id()`: returns the current runtime id from the context
(`_RUNTIME_ID_CTX.get()`); pure, never fails. -/
def get_runtime_id (w : World) : Option (List Char) :=
  w.ctx.runtimeId

/-- The message of the `RuntimeIdException` raised by `require_runtime_id`. -/
def notSetMsg : List Char :=
  "RuntimeId is required but it was not set.".data

/-- `require_runtime_id()`: returns the current runtime id, or raises
`RuntimeIdException` when it is not set. -/
def require_runtime_id (w : World) : Except PyErr (List Char) :=
  match get_runtime_id w with
  | Option.none => Except.error (PyErr.runtimeIdExc notSetMsg)
  | Option.some rid => Except.ok rid

/-- A validated decorator configuration (the keyword arguments of
`runtime_id` after the `isinstance`/value checks passed).  The Python
parameter `prefix` is `prefixOpt` here (`prefix` is reserved in Lean). -/
structure Config where
  length : Nat
  prefix_process_id : Bool
  prefixOpt : Option (List Char)
  characters : List Char
  max_depth : Nat
  sep : List Char
  deriving DecidableEq, Repr

/-- `_get_random_string(length, characters)`: `length` characters drawn from
`characters`.  The global random stream is modelled by `rand : Nat → Nat`
together with the next unconsumed position `pos`; draw `i` selects the
character at index `rand (pos + i) % length(characters)`. -/
def get_random_string (length : Nat) (characters : List Char)
    (rand : Nat → Nat) (pos : Nat) : List Char :=
  (List.range length).map fun i => characters.getD (rand (pos + i) % characters.length) 'a'

/-- The `rid += prefix + sep` step of the wrapper, guarded by Python's
truthiness test `if prefix:` (skipped when `prefix` is `None` or empty). -/
def prefixPart (po : Option (List Char)) (sep : List Char) : List Char :=
  match po with
  | Option.none => []
  | Option.some p => if p.isEmpty then [] else p ++ sep

/-- The root identifier built by the wrapper when no id is current:
`(str(os.getpid()) + sep` if `prefix_process_id`) then `(prefix + sep` if
`prefix` is truthy) then the fresh random segment. -/
def rootRid (cfg : Config) (pid : Nat) (seg : List Char) : List Char :=
  (if cfg.prefix_process_id then natRepr pid ++ cfg.sep else [])
    ++ prefixPart cfg.prefixOpt cfg.sep ++ seg

/-- The message of the `RuntimeIdException` raised when the depth check
fails: `f"Max depth of {max_depth} is reached. Current id {rid}, depth
{depth}"`. -/
def depthMsg (maxDepth : Nat) (rid : List Char) (depth : Nat) : List Char :=
  "Max depth of ".data ++ natRepr maxDepth ++ " is reached. Current id ".data
    ++ rid ++ ", depth ".data ++ natRepr depth

/-- The guarded body of the wrapper (lines 152–159 of `runtime_id.py`):
capture restore tokens for both context slots, install the new id and
`depth + 1`, run the work, and in all cases restore both slots to the
captured values before returning or re-raising. -/
def runGuarded {α : Type} (method : Work α) (rid : List Char) (depth : Nat)
    (w : World) : Except PyErr α × World :=
  let token := w.ctx.runtimeId
  let depthToken := w.ctx.depth
  let r := method { w with ctx := { runtimeId := Option.some rid, depth := depth + 1 } }
  (r.1, { r.2 with ctx := { runtimeId := token, depth := depthToken } })

/-- The `wrapper` closure produced by `runtime_id` for a validated
configuration: read the current id; if absent build a root id at depth 0,
otherwise check the depth bound (raising `RuntimeIdException` without
touching any state when `depth >= max_depth`) and extend the current id with
`sep` and a fresh segment; then run the guarded body. -/
def wrapper {α : Type} (cfg : Config) (pid : Nat) (rand : Nat → Nat)
    (method : Work α) : Work α := fun w =>
  match w.ctx.runtimeId with
  | Option.none =>
      let seg := get_random_string cfg.length cfg.characters rand w.pos
      runGuarded method (rootRid cfg pid seg) 0 { w with pos := w.pos + cfg.length }
  | Option.some r =>
      let depth := w.ctx.depth
      if cfg.max_depth ≤ depth then
        (Except.error (PyErr.runtimeIdExc (depthMsg cfg.max_depth r depth)), w)
      else
        let seg := get_random_string cfg.length cfg.characters rand w.pos
        runGuarded method (r ++ cfg.sep ++ seg) depth { w with pos := w.pos + cfg.length }

/-- The world seen by the wrapped work at the moment the wrapper invokes it
(after the new id and depth are installed and the random stream advanced). -/
def entryWorld (cfg : Config) (pid : Nat) (rand : Nat → Nat) (w : World) : World :=
  match w.ctx.runtimeId with
  | Option.none =>
      { w with
        ctx := { runtimeId := Option.some
                   (rootRid cfg pid (get_random_string cfg.length cfg.characters rand w.pos)),
                 depth := 1 },
        pos := w.pos + cfg.length }
  | Option.some r =>
      { w with
        ctx := { runtimeId := Option.some
                   (r ++ cfg.sep ++ get_random_string cfg.length cfg.characters rand w.pos),
                 depth := w.ctx.depth + 1 },
        pos := w.pos + cfg.length }

/-- A dynamically typed Python value, as passed for the keyword arguments of
`runtime_id` before validation. -/
inductive PyVal where
  | int (n : Int)
  | bool (b : Bool)
  | str (s : List Char)
  | none
  deriving DecidableEq, Repr

/-- Python's `isinstance(x, int)`; `bool` is a subclass of `int`. -/
def PyVal.isInt : PyVal → Bool
  | PyVal.int _ => true
  | PyVal.bool _ => true
  | _ => false

/-- Python's `isinstance(x, bool)`. -/
def PyVal.isBool : PyVal → Bool
  | PyVal.bool _ => true
  | _ => false

/-- Python's `isinstance(x, str)`. -/
def PyVal.isStr : PyVal → Bool
  | PyVal.str _ => true
  | _ => false

/-- The integer value of a Python int (`True` counts as 1, `False` as 0). -/
def PyVal.toInt : PyVal → Int
  | PyVal.int n => n
  | PyVal.bool b => if b then 1 else 0
  | _ => 0

/-- The string value of a Python str (meaningful only on `str`). -/
def PyVal.strVal : PyVal → List Char
  | PyVal.str s => s
  | _ => []

/-- The boolean value of a Python bool (meaningful only on `bool`). -/
def PyVal.asBool : PyVal → Bool
  | PyVal.bool b => b
  | _ => false

/-- The keyword arguments of `runtime_id` as supplied by the caller, before
validation.  Field `prefixOpt` is the Python parameter `prefix`. -/
structure RawConfig where
  length : PyVal
  prefix_process_id : PyVal
  prefixOpt : PyVal
  characters : PyVal
  max_depth : PyVal
  sep : PyVal
  deriving DecidableEq, Repr

def msgLen : List Char := "length must be an integer greater than 0".data

def msgMaxDepth : List Char := "max_depth must be an integer greater than 0".data

def msgChars : List Char := "characters must be a non-empty string".data

def msgSep : List Char := "sep must be a non-empty string".data

def msgPidFlag : List Char := "prefix_process_id must be a boolean".data

def msgPre : List Char := "prefix must be None or a non-empty string".data

/-- The validation block of `runtime_id` (lines 117–128): the six checks in
source order, each raising `ValueError` with its message; returns the message
of the first failing check, or nothing when all pass. -/
def validateConfig (c : RawConfig) : Option (List Char) :=
  if !c.length.isInt || c.length.toInt ≤ 0 then Option.some msgLen
  else if !c.max_depth.isInt || c.max_depth.toInt ≤ 0 then Option.some msgMaxDepth
  else if !c.characters.isStr || c.characters.strVal.length < 1 then Option.some msgChars
  else if !c.sep.isStr || c.sep.strVal.length < 1 then Option.some msgSep
  else if !c.prefix_process_id.isBool then Option.some msgPidFlag
  else if c.prefixOpt ≠ PyVal.none
          && (!c.prefixOpt.isStr || c.prefixOpt.strVal.length < 1) then Option.some msgPre
  else Option.none

/-- The validated configuration extracted from raw keyword arguments
(meaningful when `validateConfig` passed). -/
def mkConfig (c : RawConfig) : Config :=
  { length := c.length.toInt.toNat
    prefix_process_id := c.prefix_process_id.asBool
    prefixOpt := if c.prefixOpt = PyVal.none then Option.none
                 else Option.some c.prefixOpt.strVal
    characters := c.characters.strVal
    max_depth := c.max_depth.toInt.toNat
    sep := c.sep.strVal }

/-- The possible results of calling `runtime_id`: a deferred decorator
(`functools.partial(runtime_id, **kwargs)`, returned when `method is None`),
a wrapped callable, or a raised `ValueError` from validation. -/
inductive DecoratorResult (α : Type) where
  | partialDec (c : RawConfig)
  | wrapped (w : Work α)
  | raisedValueError (msg : List Char)

/-- `runtime_id(method, **kwargs)` (lines 106–161): when `method` is absent,
return a partial decorator carrying the keyword arguments, with no
validation; otherwise validate the configuration (raising `ValueError` on
the first violation) and return the `wrapper` closure. -/
def runtime_id {α : Type} (pid : Nat) (rand : Nat → Nat) (c : RawConfig) :
    Option (Work α) → DecoratorResult α
  | Option.none => DecoratorResult.partialDec c
  | Option.some method =>
      match validateConfig c with
      | Option.some msg => DecoratorResult.raisedValueError msg
      | Option.none => DecoratorResult.wrapped (wrapper (mkConfig c) pid rand method)

/-- Applying a decorator result to a unit of work: a partial decorator calls
`runtime_id` again with the stored keyword arguments and the work as
`method` (the semantics of `functools.partial`); the other results are not
callables taking a work, so applying is the identity on them. -/
def applyPartialDec {α : Type} (pid : Nat) (rand : Nat → Nat)
    (d : DecoratorResult α) (method : Work α) : DecoratorResult α :=
  match d with
  | DecoratorResult.partialDec c => runtime_id pid rand c (Option.some method)
  | x => x

/-- A wrapped work that observes the runtime id current inside its scope
(the body of a decorated function calling `get_runtime_id()`). -/
def probeRid : Work (Option (List Char)) := fun w =>
  (Except.ok (get_runtime_id w), w)

/-- A wrapped work that observes the depth slot current inside its scope
(the body of a decorated function reading `_RUNTIME_DEPTH_CTX`). -/
def probeDepth : Work Nat := fun w =>
  (Except.ok w.ctx.depth, w)

/-- A wrapped work that records its execution by appending `tag` to the
world's log and returns normally. -/
def logWork (tag : Nat) : Work Unit := fun w =>
  (Except.ok (), { w with log := w.log ++ [tag] })

/-- A wrapped work that raises an application error (tag 7). -/
def raiseWork : Work Unit := fun w =>
  (Except.error (PyErr.other 7), w)

/-- A small concrete configuration: 1-character segments over alphabet "ab",
separator ":", `max_depth = 2`, no prefixes. -/
def cfg2 : Config :=
  { length := 1, prefix_process_id := false, prefixOpt := Option.none,
    characters := "ab".data, max_depth := 2, sep := ":".data }

/-- A deterministic stand-in for the random stream: always draw index 0. -/
def rand0 : Nat → Nat := fun _ => 0

/-- The innermost function of the §8 depth scenario: records tag 3. -/
def depthWork3 : Work Unit := fun w =>
  (Except.ok (), { w with log := w.log ++ [3] })

/-- The innermost function of the depth scenario, decorated. -/
def depthCall3 : Work Unit := wrapper cfg2 0 rand0 depthWork3

/-- The middle function: records tag 2, then calls the decorated innermost
function. -/
def depthWork2 : Work Unit := fun w => depthCall3 { w with log := w.log ++ [2] }

/-- The middle function, decorated. -/
def depthCall2 : Work Unit := wrapper cfg2 0 rand0 depthWork2

/-- The outer function: records tag 1, then calls the decorated middle
function. -/
def depthWork1 : Work Unit := fun w => depthCall2 { w with log := w.log ++ [1] }

/-- The outer function, decorated: the root call of the depth scenario. -/
def depthCall1 : Work Unit := wrapper cfg2 0 rand0 depthWork1

/-! ## Helper lemmas about the wrapper -/

/-- The wrapper restores both context slots to their pre-entry values on
every exit path (success, error from the work, or the depth check). -/
theorem wrapper_ctx_eq {α : Type} (cfg : Config) (pid : Nat) (rand : Nat → Nat)
    (method : Work α) (w : World) :
    ((wrapper cfg pid rand method w).2).ctx = w.ctx := by
  obtain ⟨⟨orid, d⟩, pos, log⟩ := w
  cases orid with
  | none => simp [wrapper, runGuarded]
  | some r =>
      by_cases h : cfg.max_depth ≤ d
      · simp [wrapper, runGuarded, h]
      · simp [wrapper, runGuarded, h]

/-- When the wrapper enters (root scope, or nested below the depth bound),
its result is the work's result at the entry world, with the context slots
restored afterwards. -/
theorem wrapper_enter_eq {α : Type} (cfg : Config) (pid : Nat) (rand : Nat → Nat)
    (method : Work α) (w : World)
    (h : w.ctx.runtimeId = Option.none ∨ w.ctx.depth < cfg.max_depth) :
    wrapper cfg pid rand method w
      = ((method (entryWorld cfg pid rand w)).1,
         { (method (entryWorld cfg pid rand w)).2 with ctx := w.ctx }) := by
  obtain ⟨⟨orid, d⟩, pos, log⟩ := w
  cases orid with
  | none => simp [wrapper, runGuarded, entryWorld]
  | some r =>
      rcases h with h | h
      · exact absurd h (by simp)
      · have h2 : ¬ cfg.max_depth ≤ d := by
          simp only [] at h
          omega
        simp [wrapper, runGuarded, entryWorld, h2]

/-- When the depth bound is hit, the wrapper raises `RuntimeIdException`
with the formatted message and leaves the entire world untouched,
independently of the wrapped work. -/
theorem wrapper_depth_exceeded {α : Type} (cfg : Config) (pid : Nat) (rand : Nat → Nat)
    (method : Work α) (w : World) (r : List Char)
    (h1 : w.ctx.runtimeId = Option.some r) (h2 : cfg.max_depth ≤ w.ctx.depth) :
    wrapper cfg pid rand method w
      = (Except.error (PyErr.runtimeIdExc (depthMsg cfg.max_depth r w.ctx.depth)), w) := by
  obtain ⟨⟨orid, d⟩, pos, log⟩ := w
  simp only [] at h1 h2
  subst h1
  simp [wrapper, h2]

/-- A world in which a nested scope is already at the depth bound of `cfg2`:
an identifier is current and the depth slot holds 2. -/
def wAtBound : World :=
  { ctx := { runtimeId := Option.some ['x'], depth := 2 }, pos := 0, log := [] }

/-! ## Claims -/

/-- C1: for every guarded invocation (root or nested) and every outcome of
the wrapped work, immediately after the invocation exits both the current
identifier and the current depth equal their pre-entry values, and when the
work raised, the original error is what propagates after restoration. -/
theorem c1_scope_restoration_and_error_passthrough {α : Type} (cfg : Config)
    (pid : Nat) (rand : Nat → Nat) (method : Work α) (w : World) :
    ((wrapper cfg pid rand method w).2).ctx = w.ctx
    ∧ ((w.ctx.runtimeId = Option.none ∨ w.ctx.depth < cfg.max_depth) →
        (wrapper cfg pid rand method w).1 = (method (entryWorld cfg pid rand w)).1
        ∧ ∀ e, (method (entryWorld cfg pid rand w)).1 = Except.error e →
            (wrapper cfg pid rand method w).1 = Except.error e) := by
  refine ⟨wrapper_ctx_eq cfg pid rand method w, fun h => ?_⟩
  have he := wrapper_enter_eq cfg pid rand method w h
  refine ⟨by rw [he], fun e hm => ?_⟩
  rw [he]
  exact hm

/-- Witness for C1: a root invocation of work that raises error tag 7
restores the context and propagates exactly that error. -/
theorem c1_scope_restoration_and_error_passthrough_witness :
    ((wrapper cfg2 0 rand0 raiseWork World.initial).2).ctx = World.initial.ctx
    ∧ (wrapper cfg2 0 rand0 raiseWork World.initial).1
        = Except.error (PyErr.other 7) := by
  have h := c1_scope_restoration_and_error_passthrough cfg2 0 rand0 raiseWork World.initial
  exact ⟨h.1, (h.2 (Or.inl rfl)).2 (PyErr.other 7) rfl⟩

/-- C2: with `max_depth = 2`, three nested decorated calls run the works at
depths 0 and 1 (log `[1, 2]`), the third raises `RuntimeIdException`, and
the ambient state is fully restored; in general a root invocation always
runs its work, and a nested invocation runs its work exactly when the
current depth slot is below `max_depth`. -/
theorem c2_max_depth_two_scenario :
    depthCall1 World.initial
      = (Except.error (PyErr.runtimeIdExc (depthMsg 2 "a:a".data 2)),
         { ctx := { runtimeId := Option.none, depth := 0 }, pos := 2, log := [1, 2] })
    ∧ (∀ (cfg : Config) (pid : Nat) (rand : Nat → Nat) (w : World) (tag : Nat),
        w.ctx.runtimeId = Option.none →
        ((wrapper cfg pid rand (logWork tag) w).2).log = w.log ++ [tag])
    ∧ (∀ (cfg : Config) (pid : Nat) (rand : Nat → Nat) (w : World)
         (r : List Char) (tag : Nat),
        w.ctx.runtimeId = Option.some r →
        (((wrapper cfg pid rand (logWork tag) w).2).log = w.log ++ [tag]
          ↔ w.ctx.depth < cfg.max_depth)) := by
  refine ⟨by decide, ?_, ?_⟩
  · intro cfg pid rand w tag h
    rw [wrapper_enter_eq cfg pid rand (logWork tag) w (Or.inl h)]
    simp [logWork, entryWorld, h]
  · intro cfg pid rand w r tag h
    constructor
    · intro hlog
      by_contra hd
      push_neg at hd
      rw [wrapper_depth_exceeded cfg pid rand (logWork tag) w r h hd] at hlog
      simp at hlog
    · intro hd
      rw [wrapper_enter_eq cfg pid rand (logWork tag) w (Or.inr hd)]
      simp [logWork, entryWorld, h]

/-- Witness for C2: the quantified parts applied at a concrete root world
and at a concrete at-bound nested world. -/
theorem c2_max_depth_two_scenario_witness :
    ((wrapper cfg2 0 rand0 (logWork 5) World.initial).2).log = [5]
    ∧ ¬ ((wrapper cfg2 0 rand0 (logWork 6) wAtBound).2).log = [6] := by
  have h := c2_max_depth_two_scenario
  constructor
  · exact h.2.1 cfg2 0 rand0 World.initial 5 rfl
  · intro hlog
    have h2 := (h.2.2 cfg2 0 rand0 wAtBound ['x'] 6 rfl).1 (by exact hlog)
    exact absurd h2 (by decide)

/-- Counterexample to C3 as stated: inside a root scope the depth slot holds
1, not 0. -/
theorem c3_counterexample_root_depth_not_zero :
    (wrapper cfg2 0 rand0 probeDepth World.initial).1 = Except.ok 1
    ∧ (wrapper cfg2 0 rand0 probeDepth World.initial).1 ≠ Except.ok 0 := by
  decide

/-- C3 (amended): for every root-scope invocation the depth value installed
into the context store for the duration of the invocation is 1 (the local
root depth 0 plus one, counting the root scope itself), so code running
directly inside a root scope observes stored depth 1. -/
theorem c3_root_installed_depth_one (cfg : Config) (pid : Nat)
    (rand : Nat → Nat) (w : World) (h : w.ctx.runtimeId = Option.none) :
    (wrapper cfg pid rand probeDepth w).1 = Except.ok 1 := by
  rw [wrapper_enter_eq cfg pid rand probeDepth w (Or.inl h)]
  simp [probeDepth, entryWorld, h]

/-- Witness for C3 (amended): the initial world is a root scope. -/
theorem c3_root_installed_depth_one_witness :
    (wrapper cfg2 0 rand0 probeDepth World.initial).1 = Except.ok 1 :=
  c3_root_installed_depth_one cfg2 0 rand0 World.initial rfl

/-- C4: a nested invocation at `depth ≥ max_depth` raises
`RuntimeIdException` whose message names the configured max depth, the
current identifier and the current depth; the wrapped work (universally
quantified, hence never invoked) and the world (returned unchanged) are
untouched. -/
theorem c4_depth_exceeded_behavior {α : Type} (cfg : Config) (pid : Nat)
    (rand : Nat → Nat) (method : Work α) (w : World) (r : List Char)
    (h1 : w.ctx.runtimeId = Option.some r) (h2 : cfg.max_depth ≤ w.ctx.depth) :
    wrapper cfg pid rand method w
      = (Except.error (PyErr.runtimeIdExc (depthMsg cfg.max_depth r w.ctx.depth)), w) :=
  wrapper_depth_exceeded cfg pid rand method w r h1 h2

/-- Witness for C4: at the bound (`depth = max_depth = 2`) the invocation
raises with the formatted message and changes nothing. -/
theorem c4_depth_exceeded_behavior_witness :
    wrapper cfg2 0 rand0 (logWork 9) wAtBound
      = (Except.error (PyErr.runtimeIdExc (depthMsg 2 ['x'] 2)), wAtBound) :=
  c4_depth_exceeded_behavior cfg2 0 rand0 (logWork 9) wAtBound ['x'] rfl (by decide)

/-- A world with a nested scope active: identifier `"p"`, depth slot 1. -/
def wNested : World :=
  { ctx := { runtimeId := Option.some ['p'], depth := 1 }, pos := 0, log := [] }

/-- C5: a successful nested invocation observes exactly
(outer identifier + separator + one fresh segment of the configured length);
hence the inner identifier has the outer one plus separator as a prefix and
is strictly longer than the outer identifier. -/
theorem c5_nested_identifier_composition (cfg : Config) (pid : Nat)
    (rand : Nat → Nat) (w : World) (r : List Char)
    (h1 : w.ctx.runtimeId = Option.some r) (h2 : w.ctx.depth < cfg.max_depth)
    (h3 : 0 < cfg.length) :
    (wrapper cfg pid rand probeRid w).1
      = Except.ok (Option.some
          (r ++ cfg.sep ++ get_random_string cfg.length cfg.characters rand w.pos))
    ∧ (r ++ cfg.sep) <+:
        (r ++ cfg.sep ++ get_random_string cfg.length cfg.characters rand w.pos)
    ∧ r.length
        < (r ++ cfg.sep ++ get_random_string cfg.length cfg.characters rand w.pos).length
    ∧ (get_random_string cfg.length cfg.characters rand w.pos).length = cfg.length := by
  have hlen : (get_random_string cfg.length cfg.characters rand w.pos).length
      = cfg.length := by
    simp [get_random_string]
  refine ⟨?_, ⟨_, rfl⟩, ?_, hlen⟩
  · rw [wrapper_enter_eq cfg pid rand probeRid w (Or.inr h2)]
    simp [probeRid, get_runtime_id, entryWorld, h1]
  · simp only [List.length_append, hlen]
    omega

/-- Witness for C5: nesting inside identifier `"p"` at depth 1 under `cfg2`. -/
theorem c5_nested_identifier_composition_witness :
    (wrapper cfg2 0 rand0 probeRid wNested).1
      = Except.ok (Option.some
          (['p'] ++ cfg2.sep ++ get_random_string cfg2.length cfg2.characters rand0 wNested.pos))
    ∧ (['p'] ++ cfg2.sep) <+:
        (['p'] ++ cfg2.sep ++ get_random_string cfg2.length cfg2.characters rand0 wNested.pos)
    ∧ (['p'] : List Char).length
        < (['p'] ++ cfg2.sep
            ++ get_random_string cfg2.length cfg2.characters rand0 wNested.pos).length
    ∧ (get_random_string cfg2.length cfg2.characters rand0 wNested.pos).length
        = cfg2.length :=
  c5_nested_identifier_composition cfg2 0 rand0 wNested ['p'] rfl (by decide) (by decide)

/-- The body of an `async def` unit of work: when eventually resumed by the
scheduler, it observes the then-current runtime id. -/
def asyncProbeBody : Work (Option (List Char)) := fun w =>
  (Except.ok (get_runtime_id w), w)

/-- Calling an `async def` function: the call itself only creates the
coroutine object and returns it at once; the body has not run and the
ambient world is untouched. -/
def asyncMethod : Work (Work (Option (List Char))) := fun w =>
  (Except.ok asyncProbeBody, w)

/-- C6 (code evaluation at the failing input): the decorated call on an
`async def` work returns the still-unexecuted coroutine, and the wrapper's
`finally` has already reset both context slots, so when the coroutine is
later resumed (awaited) its body observes no runtime id at all. -/
theorem c6_async_body_resumes_outside_scope :
    (wrapper cfg2 0 rand0 asyncMethod World.initial).1 = Except.ok asyncProbeBody
    ∧ (asyncProbeBody ((wrapper cfg2 0 rand0 asyncMethod World.initial).2)).1
        = Except.ok Option.none :=
  ⟨rfl, rfl⟩

/-- The default decorator configuration: 8-character segments over the
36-symbol lowercase alphanumeric alphabet, `max_depth 3`, separator ":". -/
def cfg7 : Config :=
  { length := 8, prefix_process_id := false, prefixOpt := Option.none,
    characters := "0123456789abcdefghijklmnopqrstuvwxyz".data,
    max_depth := 3, sep := ":".data }

/-- A random stream that always draws index 4 (the character `'4'` in the
default alphabet). -/
def rand4 : Nat → Nat := fun _ => 4

/-- Counterexample to C7 as stated: with `prefix_process_id = false`, process
id 4 and a random draw of all `'4'`s, the decimal process id string occurs
inside the identifier even though no process-id prefix was prepended. -/
theorem c7_counterexample_pid_digits_in_identifier :
    (wrapper cfg7 4 rand4 probeRid World.initial).1
      = Except.ok (Option.some "44444444".data)
    ∧ natRepr 4 <:+: "44444444".data := by
  constructor
  · decide
  · exact ⟨[], "4444444".data, by decide⟩

/-- A configuration with both the process-id prefix and a static prefix. -/
def cfgPid : Config :=
  { length := 1, prefix_process_id := true, prefixOpt := Option.some "app".data,
    characters := "ab".data, max_depth := 3, sep := ":".data }

/-- C7 (amended): at a root scope the observed identifier is exactly
`rootRid`; with `prefix_process_id = true` it is the decimal process id, the
separator, then the static-prefix part, then the segment (so it begins with
pid + separator); with `prefix_process_id = false` no process-id prefix is
prepended: the identifier is exactly the static-prefix part followed by the
random segment (whose characters may coincidentally spell the pid). -/
theorem c7_root_prefix_structure (cfg : Config) (pid : Nat) (rand : Nat → Nat)
    (w : World) (h : w.ctx.runtimeId = Option.none) :
    (wrapper cfg pid rand probeRid w).1
      = Except.ok (Option.some
          (rootRid cfg pid (get_random_string cfg.length cfg.characters rand w.pos)))
    ∧ (cfg.prefix_process_id = true →
        rootRid cfg pid (get_random_string cfg.length cfg.characters rand w.pos)
          = natRepr pid ++ cfg.sep
              ++ (prefixPart cfg.prefixOpt cfg.sep
                    ++ get_random_string cfg.length cfg.characters rand w.pos)
        ∧ (natRepr pid ++ cfg.sep) <+:
            rootRid cfg pid (get_random_string cfg.length cfg.characters rand w.pos))
    ∧ (cfg.prefix_process_id = false →
        rootRid cfg pid (get_random_string cfg.length cfg.characters rand w.pos)
          = prefixPart cfg.prefixOpt cfg.sep
              ++ get_random_string cfg.length cfg.characters rand w.pos) := by
  refine ⟨?_, fun hf => ⟨?_, ?_⟩, fun hf => ?_⟩
  · rw [wrapper_enter_eq cfg pid rand probeRid w (Or.inl h)]
    simp [probeRid, get_runtime_id, entryWorld, h]
  · simp [rootRid, hf, List.append_assoc]
  · exact ⟨prefixPart cfg.prefixOpt cfg.sep
            ++ get_random_string cfg.length cfg.characters rand w.pos,
          by simp [rootRid, hf, List.append_assoc]⟩
  · simp [rootRid, hf]

/-- Witness for C7 (amended): applied with the prefix configuration
(pid 42) and with the plain configuration. -/
theorem c7_root_prefix_structure_witness :
    (natRepr 42 ++ cfgPid.sep) <+:
      rootRid cfgPid 42 (get_random_string cfgPid.length cfgPid.characters rand0 World.initial.pos)
    ∧ rootRid cfg2 0 (get_random_string cfg2.length cfg2.characters rand0 World.initial.pos)
        = prefixPart cfg2.prefixOpt cfg2.sep
            ++ get_random_string cfg2.length cfg2.characters rand0 World.initial.pos := by
  constructor
  · exact ((c7_root_prefix_structure cfgPid 42 rand0 World.initial rfl).2.1 rfl).2
  · exact (c7_root_prefix_structure cfg2 0 rand0 World.initial rfl).2.2 rfl

/-! ## Validation stage lemmas -/

/-- When the segment length is not a positive integer, validation reports
the `length` message (the first check in source order). -/
theorem validateConfig_len {c : RawConfig}
    (h : c.length.isInt = false ∨ c.length.toInt ≤ 0) :
    validateConfig c = Option.some msgLen := by
  rcases h with h | h
  · simp [validateConfig, h]
  · simp [validateConfig, h]

/-- When the length check passes but the max depth is not a positive
integer, validation reports the `max_depth` message. -/
theorem validateConfig_max {c : RawConfig}
    (h1 : c.length.isInt = true) (h2 : 0 < c.length.toInt)
    (h : c.max_depth.isInt = false ∨ c.max_depth.toInt ≤ 0) :
    validateConfig c = Option.some msgMaxDepth := by
  have hl : ¬ c.length.toInt ≤ 0 := by omega
  rcases h with h | h
  · simp [validateConfig, h1, hl, h]
  · simp [validateConfig, h1, hl, h]

/-- When the integer checks pass but the alphabet is empty (or not a
string), validation reports the `characters` message. -/
theorem validateConfig_chars {c : RawConfig}
    (h1 : c.length.isInt = true) (h2 : 0 < c.length.toInt)
    (h3 : c.max_depth.isInt = true) (h4 : 0 < c.max_depth.toInt)
    (h : c.characters.isStr = false ∨ c.characters.strVal = []) :
    validateConfig c = Option.some msgChars := by
  have hl : ¬ c.length.toInt ≤ 0 := by omega
  have hm : ¬ c.max_depth.toInt ≤ 0 := by omega
  rcases h with h | h
  · simp [validateConfig, h1, hl, h3, hm, h]
  · simp [validateConfig, h1, hl, h3, hm, h]

/-- When the previous checks pass but the separator is empty (or not a
string), validation reports the `sep` message. -/
theorem validateConfig_sep {c : RawConfig}
    (h1 : c.length.isInt = true) (h2 : 0 < c.length.toInt)
    (h3 : c.max_depth.isInt = true) (h4 : 0 < c.max_depth.toInt)
    (h5 : c.characters.isStr = true) (h6 : c.characters.strVal ≠ [])
    (h : c.sep.isStr = false ∨ c.sep.strVal = []) :
    validateConfig c = Option.some msgSep := by
  have hl : ¬ c.length.toInt ≤ 0 := by omega
  have hm : ¬ c.max_depth.toInt ≤ 0 := by omega
  have hc : ¬ c.characters.strVal.length < 1 := by
    cases hx : c.characters.strVal with
    | nil => exact absurd hx h6
    | cons a l => simp
  rcases h with h | h
  · simp [validateConfig, h1, hl, h3, hm, h5, hc, h]
  · simp [validateConfig, h1, hl, h3, hm, h5, hc, h]

/-- When the previous checks pass but the process-id flag is not a boolean,
validation reports the `prefix_process_id` message. -/
theorem validateConfig_pidFlag {c : RawConfig}
    (h1 : c.length.isInt = true) (h2 : 0 < c.length.toInt)
    (h3 : c.max_depth.isInt = true) (h4 : 0 < c.max_depth.toInt)
    (h5 : c.characters.isStr = true) (h6 : c.characters.strVal ≠ [])
    (h7 : c.sep.isStr = true) (h8 : c.sep.strVal ≠ [])
    (h : c.prefix_process_id.isBool = false) :
    validateConfig c = Option.some msgPidFlag := by
  have hl : ¬ c.length.toInt ≤ 0 := by omega
  have hm : ¬ c.max_depth.toInt ≤ 0 := by omega
  have hc : ¬ c.characters.strVal.length < 1 := by
    cases hx : c.characters.strVal with
    | nil => exact absurd hx h6
    | cons a l => simp
  have hs : ¬ c.sep.strVal.length < 1 := by
    cases hx : c.sep.strVal with
    | nil => exact absurd hx h8
    | cons a l => simp
  simp [validateConfig, h1, hl, h3, hm, h5, hc, h7, hs, h]

/-- When every earlier check passes but the static prefix is present and is
empty (or not a string), validation reports the `prefix` message. -/
theorem validateConfig_pre {c : RawConfig}
    (h1 : c.length.isInt = true) (h2 : 0 < c.length.toInt)
    (h3 : c.max_depth.isInt = true) (h4 : 0 < c.max_depth.toInt)
    (h5 : c.characters.isStr = true) (h6 : c.characters.strVal ≠ [])
    (h7 : c.sep.isStr = true) (h8 : c.sep.strVal ≠ [])
    (h9 : c.prefix_process_id.isBool = true)
    (hne : c.prefixOpt ≠ PyVal.none)
    (h : c.prefixOpt.isStr = false ∨ c.prefixOpt.strVal = []) :
    validateConfig c = Option.some msgPre := by
  have hl : ¬ c.length.toInt ≤ 0 := by omega
  have hm : ¬ c.max_depth.toInt ≤ 0 := by omega
  have hc : ¬ c.characters.strVal.length < 1 := by
    cases hx : c.characters.strVal with
    | nil => exact absurd hx h6
    | cons a l => simp
  have hs : ¬ c.sep.strVal.length < 1 := by
    cases hx : c.sep.strVal with
    | nil => exact absurd hx h8
    | cons a l => simp
  rcases h with h | h
  · simp [validateConfig, h1, hl, h3, hm, h5, hc, h7, hs, h9, hne, h]
  · simp [validateConfig, h1, hl, h3, hm, h5, hc, h7, hs, h9, hne, h]

/-- The wrapper itself never raises `ValueError`: an invocation can yield a
`ValueError` only if the wrapped work itself produced it. -/
theorem wrapper_no_valueError {α : Type} (cfg : Config) (pid : Nat)
    (rand : Nat → Nat) (method : Work α) (w : World)
    (hm : ∀ w2 msg, (method w2).1 ≠ Except.error (PyErr.valueError msg)) :
    ∀ msg, (wrapper cfg pid rand method w).1 ≠ Except.error (PyErr.valueError msg) := by
  intro msg heq
  cases ho : w.ctx.runtimeId with
  | none =>
      rw [wrapper_enter_eq cfg pid rand method w (Or.inl ho)] at heq
      exact hm _ msg heq
  | some r =>
      by_cases hd : cfg.max_depth ≤ w.ctx.depth
      · rw [wrapper_depth_exceeded cfg pid rand method w r ho hd] at heq
        simp at heq
      · push_neg at hd
        rw [wrapper_enter_eq cfg pid rand method w (Or.inr hd)] at heq
        exact hm _ msg heq

/-- A fully valid raw configuration (concrete keyword arguments). -/
def cValid : RawConfig :=
  { length := PyVal.int 8, prefix_process_id := PyVal.bool false,
    prefixOpt := PyVal.none, characters := PyVal.str "ab".data,
    max_depth := PyVal.int 3, sep := PyVal.str ":".data }

/-- `cValid` with `length=0`. -/
def cBadLen : RawConfig := { cValid with length := PyVal.int 0 }

/-- `cValid` with `max_depth=0`. -/
def cBadMax : RawConfig := { cValid with max_depth := PyVal.int 0 }

/-- `cValid` with an empty alphabet. -/
def cBadChars : RawConfig := { cValid with characters := PyVal.str [] }

/-- `cValid` with an empty separator. -/
def cBadSep : RawConfig := { cValid with sep := PyVal.str [] }

/-- `cValid` with the string `"true"` for the process-id flag. -/
def cBadFlag : RawConfig := { cValid with prefix_process_id := PyVal.str "true".data }

/-- `cValid` with a present-but-empty static prefix. -/
def cBadPre : RawConfig := { cValid with prefixOpt := PyVal.str [] }

/-- C8: each invalid configuration value (length or max depth not a positive
integer, empty alphabet, empty separator, present-but-empty static prefix,
non-boolean process-id flag) makes the decoration step fail with a
`ValueError` naming that parameter, before any invocation; and an invocation
of the wrapper never raises `ValueError` unless the wrapped work itself
does. -/
theorem c8_config_validation_at_wrap_time {α : Type} (pid : Nat)
    (rand : Nat → Nat) (c : RawConfig) (m : Work α) :
    ((c.length.isInt = false ∨ c.length.toInt ≤ 0) →
       runtime_id pid rand c (Option.some m) = DecoratorResult.raisedValueError msgLen)
    ∧ (c.length.isInt = true → 0 < c.length.toInt →
       (c.max_depth.isInt = false ∨ c.max_depth.toInt ≤ 0) →
       runtime_id pid rand c (Option.some m) = DecoratorResult.raisedValueError msgMaxDepth)
    ∧ (c.length.isInt = true → 0 < c.length.toInt →
       c.max_depth.isInt = true → 0 < c.max_depth.toInt →
       (c.characters.isStr = false ∨ c.characters.strVal = []) →
       runtime_id pid rand c (Option.some m) = DecoratorResult.raisedValueError msgChars)
    ∧ (c.length.isInt = true → 0 < c.length.toInt →
       c.max_depth.isInt = true → 0 < c.max_depth.toInt →
       c.characters.isStr = true → c.characters.strVal ≠ [] →
       (c.sep.isStr = false ∨ c.sep.strVal = []) →
       runtime_id pid rand c (Option.some m) = DecoratorResult.raisedValueError msgSep)
    ∧ (c.length.isInt = true → 0 < c.length.toInt →
       c.max_depth.isInt = true → 0 < c.max_depth.toInt →
       c.characters.isStr = true → c.characters.strVal ≠ [] →
       c.sep.isStr = true → c.sep.strVal ≠ [] →
       c.prefix_process_id.isBool = false →
       runtime_id pid rand c (Option.some m) = DecoratorResult.raisedValueError msgPidFlag)
    ∧ (c.length.isInt = true → 0 < c.length.toInt →
       c.max_depth.isInt = true → 0 < c.max_depth.toInt →
       c.characters.isStr = true → c.characters.strVal ≠ [] →
       c.sep.isStr = true → c.sep.strVal ≠ [] →
       c.prefix_process_id.isBool = true →
       c.prefixOpt ≠ PyVal.none →
       (c.prefixOpt.isStr = false ∨ c.prefixOpt.strVal = []) →
       runtime_id pid rand c (Option.some m) = DecoratorResult.raisedValueError msgPre)
    ∧ (∀ (cfg : Config) (method : Work α) (w : World),
         (∀ w2 msg, (method w2).1 ≠ Except.error (PyErr.valueError msg)) →
         ∀ msg, (wrapper cfg pid rand method w).1 ≠ Except.error (PyErr.valueError msg)) := by
  refine ⟨fun h => ?_, fun h1 h2 h => ?_, fun h1 h2 h3 h4 h => ?_,
          fun h1 h2 h3 h4 h5 h6 h => ?_, fun h1 h2 h3 h4 h5 h6 h7 h8 h => ?_,
          fun h1 h2 h3 h4 h5 h6 h7 h8 h9 hne h => ?_,
          fun cfg method w hm => wrapper_no_valueError cfg pid rand method w hm⟩
  · simp [runtime_id, validateConfig_len h]
  · simp [runtime_id, validateConfig_max h1 h2 h]
  · simp [runtime_id, validateConfig_chars h1 h2 h3 h4 h]
  · simp [runtime_id, validateConfig_sep h1 h2 h3 h4 h5 h6 h]
  · simp [runtime_id, validateConfig_pidFlag h1 h2 h3 h4 h5 h6 h7 h8 h]
  · simp [runtime_id, validateConfig_pre h1 h2 h3 h4 h5 h6 h7 h8 h9 hne h]

/-- Witness for C8: the six concrete invalid configurations each fail with
their parameter's message, and a benign work's invocation never surfaces a
`ValueError`. -/
theorem c8_config_validation_at_wrap_time_witness :
    runtime_id 0 rand0 cBadLen (Option.some (logWork 5))
      = DecoratorResult.raisedValueError msgLen
    ∧ runtime_id 0 rand0 cBadMax (Option.some (logWork 5))
        = DecoratorResult.raisedValueError msgMaxDepth
    ∧ runtime_id 0 rand0 cBadChars (Option.some (logWork 5))
        = DecoratorResult.raisedValueError msgChars
    ∧ runtime_id 0 rand0 cBadSep (Option.some (logWork 5))
        = DecoratorResult.raisedValueError msgSep
    ∧ runtime_id 0 rand0 cBadFlag (Option.some (logWork 5))
        = DecoratorResult.raisedValueError msgPidFlag
    ∧ runtime_id 0 rand0 cBadPre (Option.some (logWork 5))
        = DecoratorResult.raisedValueError msgPre
    ∧ (wrapper cfg2 0 rand0 (logWork 5) World.initial).1
        ≠ Except.error (PyErr.valueError msgLen) := by
  refine ⟨?_, ?_, ?_, ?_, ?_, ?_, ?_⟩
  · exact (c8_config_validation_at_wrap_time 0 rand0 cBadLen (logWork 5)).1
      (Or.inr (by decide))
  · exact (c8_config_validation_at_wrap_time 0 rand0 cBadMax (logWork 5)).2.1
      rfl (by decide) (Or.inr (by decide))
  · exact (c8_config_validation_at_wrap_time 0 rand0 cBadChars (logWork 5)).2.2.1
      rfl (by decide) rfl (by decide) (Or.inr rfl)
  · exact (c8_config_validation_at_wrap_time 0 rand0 cBadSep (logWork 5)).2.2.2.1
      rfl (by decide) rfl (by decide) rfl (by decide) (Or.inr rfl)
  · exact (c8_config_validation_at_wrap_time 0 rand0 cBadFlag (logWork 5)).2.2.2.2.1
      rfl (by decide) rfl (by decide) rfl (by decide) rfl (by decide) rfl
  · exact (c8_config_validation_at_wrap_time 0 rand0 cBadPre (logWork 5)).2.2.2.2.2.1
      rfl (by decide) rfl (by decide) rfl (by decide) rfl (by decide) rfl
      (by decide) (Or.inr rfl)
  · exact (c8_config_validation_at_wrap_time 0 rand0 cValid (logWork 5)).2.2.2.2.2.2
      cfg2 (logWork 5) World.initial (fun w2 msg => by simp [logWork]) msgLen

/-- C9: outside any scope `get_runtime_id` returns nothing and
`require_runtime_id` raises the not-set `RuntimeIdException`; inside a scope
`require_runtime_id` returns exactly what `get_runtime_id` returns. -/
theorem c9_get_require_consistency (w : World) :
    (get_runtime_id w = Option.none →
       require_runtime_id w = Except.error (PyErr.runtimeIdExc notSetMsg))
    ∧ (∀ r, get_runtime_id w = Option.some r → require_runtime_id w = Except.ok r) := by
  constructor
  · intro h
    simp [require_runtime_id, h]
  · intro r h
    simp [require_runtime_id, h]

/-- Witness for C9: at the initial world and at a world with an active
scope. -/
theorem c9_get_require_consistency_witness :
    require_runtime_id World.initial = Except.error (PyErr.runtimeIdExc notSetMsg)
    ∧ require_runtime_id wNested = Except.ok ['p'] :=
  ⟨(c9_get_require_consistency World.initial).1 rfl,
   (c9_get_require_consistency wNested).2 ['p'] rfl⟩

/-- C10: calling `runtime_id` with keyword arguments but no method returns a
partial decorator with no validation at all; applying that partial to a unit
of work is exactly the full `runtime_id` call, at which point an invalid
configuration raises its `ValueError`. -/
theorem c10_partial_defers_validation {α : Type} (pid : Nat) (rand : Nat → Nat)
    (c : RawConfig) (m : Work α) :
    runtime_id pid rand c (Option.none : Option (Work α))
      = DecoratorResult.partialDec c
    ∧ applyPartialDec pid rand (runtime_id pid rand c Option.none) m
        = runtime_id pid rand c (Option.some m)
    ∧ (∀ msg, validateConfig c = Option.some msg →
        applyPartialDec pid rand (runtime_id pid rand c Option.none) m
          = DecoratorResult.raisedValueError msg) := by
  refine ⟨rfl, rfl, fun msg h => ?_⟩
  simp [applyPartialDec, runtime_id, h]

/-- Witness for C10: the invalid `length=0` configuration raises nothing at
the partial stage and raises the `length` message once applied to work. -/
theorem c10_partial_defers_validation_witness :
    runtime_id 0 rand0 cBadLen (Option.none : Option (Work Unit))
      = DecoratorResult.partialDec cBadLen
    ∧ applyPartialDec 0 rand0 (runtime_id 0 rand0 cBadLen Option.none) (logWork 5)
        = DecoratorResult.raisedValueError msgLen := by
  have h := c10_partial_defers_validation 0 rand0 cBadLen (logWork 5)
  exact ⟨h.1, h.2.2 msgLen (by decide)⟩
